import Mathlib

/-!
Shallow embedding of `src/YouMain.py`, a command-line YouTube downloader.

The program's pure logic (URL validation, option defaults, path
normalization, file classification) is translated into executable Lean
functions.  Its effectful parts (console prompts, filesystem moves and
deletions, the external `yt_dlp` call, process exit) are modelled by
explicit state passing: directory contents are lists of file names,
console input is a list of strings, the external fetch is an abstract
outcome parameter, and raised Python exceptions are explicit values.
-/

namespace YouMain

/-- Characters stripped by Python `str.strip()` with no argument
(the ASCII whitespace characters; the inputs at issue are ASCII). -/
def pyIsSpace (c : Char) : Bool :=
  c = ' ' || c = '\t' || c = '\n' || c = '\x0d' || c = '\x0b' || c = '\x0c'

/-- Python `str.strip()` on a character list: drop whitespace at both ends. -/
def pyStripList (l : List Char) : List Char :=
  ((l.dropWhile pyIsSpace).reverse.dropWhile pyIsSpace).reverse

/-- Python `str.strip()`. -/
def pyStrip (s : String) : String :=
  ⟨pyStripList s.data⟩

/-- Python `str.lower()` on one ASCII character. -/
def pyCharLower (c : Char) : Char :=
  if 'A' ≤ c ∧ c ≤ 'Z' then Char.ofNat (c.toNat + 32) else c

/-- Python `str.lower()` (ASCII case mapping; the inputs at issue are ASCII). -/
def pyLower (s : String) : String :=
  ⟨s.data.map pyCharLower⟩

/-- `DEFAULT_VIDEO_QUALITY` from `YouMain.py` line 47. -/
def DEFAULT_VIDEO_QUALITY : String := "best"

/-- `DEFAULT_AUDIO_FORMAT` from `YouMain.py` line 48. -/
def DEFAULT_AUDIO_FORMAT : String := "best"

/-- `DEFAULT_SUBTITLES` from `YouMain.py` line 49. -/
def DEFAULT_SUBTITLES : Bool := true

/-- The option record built by `get_user_options` (`YouMain.py` lines 83-97). -/
structure UserOptions where
  video_quality : String
  audio_format : String
  subtitles : Bool
deriving DecidableEq

/-- Embedding of `get_user_options` (`YouMain.py` lines 83-97).  The three
console reads become the three arguments (raw text typed at the quality,
audio-format and subtitles prompts).  `input(..).strip() or DEFAULT` keeps
the stripped text when it is non-empty and falls back to the default
otherwise; the subtitles line is Python
`input(..).strip().lower() == 'y' or DEFAULT_SUBTITLES`, a boolean `or`
whose right operand is the constant `True`. -/
def get_user_options (q a s : String) : UserOptions :=
  { video_quality := if pyStrip q = "" then DEFAULT_VIDEO_QUALITY else pyStrip q
    audio_format := if pyStrip a = "" then DEFAULT_AUDIO_FORMAT else pyStrip a
    subtitles := (pyLower (pyStrip s) = "y") || DEFAULT_SUBTITLES }

/-- Scheme alternatives of the regex on `YouMain.py` line 70: the optional
group `(https?://)?` either consumes one of the two scheme literals or
nothing. -/
def SCHEMES : List String := ["http://", "https://", ""]

/-- Alternatives of the optional group `(www\.)?` on `YouMain.py` line 70. -/
def WWW_PARTS : List String := ["www.", ""]

/-- Host alternation `(youtube|youtu|youtube-nocookie)` on `YouMain.py` line 70. -/
def HOSTS : List String := ["youtube", "youtu", "youtube-nocookie"]

/-- Top-level-domain alternation `(com|be)` on `YouMain.py` line 70. -/
def TLDS : List String := ["com", "be"]

/-- Strip an expected leading segment: `dropPre? p l = some r` when
`l = p ++ r`, `none` when `p` does not start `l`. -/
def dropPre? : List Char → List Char → Option (List Char)
  | [], l => some l
  | _ :: _, [] => none
  | a :: p, b :: l => if a = b then dropPre? p l else none

/-- Semantics of the regex tail `.*$` under Python `re.match` with default
flags: `.` never matches a newline and `$` matches at the end of the string
or just before one trailing newline, so the tail is a newline-free run with
at most one final `'\n'`. -/
def tail_ok : List Char → Bool
  | [] => true
  | ['\n'] => true
  | c :: rest => c ≠ '\n' && tail_ok rest

/-- One alternative of the anchored regex on `YouMain.py` line 70: the
input starts with scheme, `www.` part, host, `'.'`, TLD and `'/'`, and the
remainder satisfies the `.*$` tail. -/
def matches_alt (s sc w h t : List Char) : Bool :=
  match dropPre? (sc ++ w ++ h ++ '.' :: t ++ ['/']) s with
  | some rest => tail_ok rest
  | none => false

/-- Embedding of `is_valid_url` (`YouMain.py` lines 68-71):
`bool(re.match(r'^(https?://)?(www\.)?(youtube|youtu|youtube-nocookie)\.(com|be)/.*$', url))`.
The regex is compiled with default flags (no case-insensitivity).  A
backtracking match of this anchored pattern exists exactly when some choice
of the optional groups and alternations decomposes the input, so the
embedding ranges over all alternatives. -/
def is_valid_url (url : String) : Bool :=
  SCHEMES.any fun sc => WWW_PARTS.any fun w => HOSTS.any fun h => TLDS.any fun t =>
    matches_alt url.data sc.data w.data h.data t.data

/-- Specification-side predicate (from the spec's words, for comparison
with `is_valid_url`): the string decomposes as optional scheme, optional
`www.`, a host alias, a dot, a TLD and a slash-led path. -/
def UrlPatternMatch (s : String) : Prop :=
  ∃ sc ∈ SCHEMES, ∃ w ∈ WWW_PARTS, ∃ h ∈ HOSTS, ∃ t ∈ TLDS, ∃ rest : List Char,
    s.data = sc.data ++ w.data ++ h.data ++ '.' :: t.data ++ '/' :: rest ∧
    tail_ok rest = true

/-- Specification-side matcher for the claim's case-insensitive reading:
the pattern is matched against the lower-cased input (all pattern literals
are already lower case). -/
def url_matches_ci (s : String) : Bool :=
  is_valid_url (pyLower s)

/-- Python exception classes that the program's code paths can raise or
catch (`AttributeError`, `FileNotFoundError`, `PermissionError`, other
`OSError`, `KeyboardInterrupt`, `subprocess.CalledProcessError`). -/
inductive PyExc where
  | attributeError
  | fileNotFoundError
  | permissionError
  | osError
  | keyboardInterrupt
  | calledProcessError
deriving DecidableEq

/-- Lines 226-229 of `run`: the stripped directory input is kept when
non-empty, otherwise `file_location_previous` (possibly `None`) is used. -/
def resolve_file_location (prev : Option String) (inp : String) : Option String :=
  if pyStrip inp = "" then prev else some (pyStrip inp)

/-- Line 231 of `run`: `file_location.replace("\\", "/")` on Windows and
`file_location.replace("\\", os.sep)` elsewhere; `os.sep` is `'/'` on the
non-Windows branch, so both branches replace each backslash with `'/'`. -/
def replace_backslashes (s : String) : String :=
  ⟨s.data.map fun c => if c = '\\' then '/' else c⟩

/-- Lines 226-231 of `run` as one step: resolve the directory value, then
apply the `.replace` method to it.  When the value is `None` (blank input
and no remembered directory), attribute access on `None` raises
`AttributeError`. -/
def prompting_step (prev : Option String) (inp : String) : Except PyExc String :=
  match resolve_file_location prev inp with
  | none => Except.error PyExc.attributeError
  | some s => Except.ok (replace_backslashes s)

/-- Exception classes caught by the `__main__` handlers (lines 254-266:
`KeyboardInterrupt`, `(FileNotFoundError, PermissionError)`, `OSError`).
`AttributeError` is not an `OSError`, so it is in none of them. -/
def handled_at_top_level (e : PyExc) : Bool :=
  e = PyExc.keyboardInterrupt || e = PyExc.fileNotFoundError ||
    e = PyExc.permissionError || e = PyExc.osError

/-- `FILE_EXTENSIONS` from `YouMain.py` line 46. -/
def FILE_EXTENSIONS : List String := [".webp", ".png", ".jpg", ".jpeg"]

/-- Python `s.endswith(suf)` for a single suffix: exact, case-sensitive
suffix test. -/
def endswith (s suf : String) : Bool :=
  suf.data.isSuffixOf s.data

/-- The filter on line 111: `file.endswith(FILE_EXTENSIONS)` with a tuple
argument is true when the name ends with any of the listed extensions. -/
def is_thumbnail (f : String) : Bool :=
  FILE_EXTENSIONS.any fun ext => endswith f ext

/-- Directory state for the organizing step: the immediate entries of the
source directory, and existence plus immediate entries of the destination
subdirectory. -/
structure DirState where
  source_files : List String
  dest_exists : Bool
  dest_files : List String
deriving DecidableEq

/-- Embedding of `move_thumbnails` (`YouMain.py` lines 101-117):
`os.makedirs` creates the destination (with intermediate segments) when
absent; the listing of the source is filtered by
`file.endswith(FILE_EXTENSIONS)`; each selected file is `shutil.move`d to
the destination under the same name, removing it from the source. -/
def move_thumbnails (st : DirState) : DirState :=
  { dest_exists := true
    source_files := st.source_files.filter fun f => !is_thumbnail f
    dest_files := st.dest_files ++ st.source_files.filter is_thumbnail }

/-- Embedding of `remove_ytdl_files` (`YouMain.py` lines 120-130) on the
listing of the directory: every entry whose name ends with `.ytdl` is
`os.remove`d; the rest are untouched. -/
def remove_ytdl_files (files : List String) : List String :=
  files.filter fun f => !endswith f ".ytdl"

/-- Outcome of the external `yt_dlp` call inside
`download_video_with_options`: it either returns, or raises
`yt_dlp.utils.DownloadError` with a detail message (network, extraction or
format failure; the external engine is an opaque collaborator). -/
inductive FetchOutcome where
  | success
  | downloadError (detail : String)

/-- Observable effect of one step: the console lines it prints and the
exception it lets escape (`none` when it returns normally). -/
structure StepLog where
  printed : List String
  raised : Option PyExc
deriving DecidableEq

/-- Embedding of `download_video_with_options` (`YouMain.py` lines
134-171): the external call's result is the `FetchOutcome` argument.
`yt_dlp.utils.DownloadError` is caught, logged (logging is disabled) and
printed; in both cases the function returns normally, raising nothing. -/
def download_video_with_options (o : FetchOutcome) : StepLog :=
  match o with
  | FetchOutcome.success => ⟨[], none⟩
  | FetchOutcome.downloadError d => ⟨["Error: " ++ d], none⟩

/-- Lines 242-244 of `run`: `download_video_with_options`, then
`move_thumbnails` into the `thumbnails` subdirectory, then
`remove_ytdl_files` — an unconditional sequence, not guarded by the fetch
outcome. -/
def fetch_and_organize (o : FetchOutcome) (st : DirState) : StepLog × DirState :=
  let log := download_video_with_options o
  let st1 := move_thumbnails st
  (log, { st1 with source_files := remove_ytdl_files st1.source_files })

/-- Decision produced by the restart prompt: run again with the remembered
directory, or terminate. -/
inductive Decision where
  | restart (dir : String)
  | terminate
deriving DecidableEq

/-- Embedding of `start_again` (`YouMain.py` lines 188-199) over the list
of console answers: each answer is stripped and lower-cased; `"y"` calls
`run(prev_file_location)`, `"n"` calls `close()`, anything else prints an
error and re-prompts.  Returns how many prompts were consumed and the
decision (`none` when the given input is exhausted with no valid answer,
i.e. the loop is still blocking). -/
def start_again (dir : String) : List String → Nat × Option Decision
  | [] => (0, none)
  | i :: rest =>
    if pyLower (pyStrip i) = "y" then (1, some (Decision.restart dir))
    else if pyLower (pyStrip i) = "n" then (1, some Decision.terminate)
    else ((start_again dir rest).1 + 1, (start_again dir rest).2)

/-- Farewell printed by `close` (`YouMain.py` line 205). -/
def close_farewell : String := "\nBye"

/-- Exit status of `close` (`YouMain.py` line 207): `sys.exit()` with no
argument exits with status 0. -/
def close_exit_code : Nat := 0

/-- Directory prompt text of `run` (`YouMain.py` lines 221-224): the
remembered directory is shown as the default when present. -/
def file_location_prompt : Option String → String
  | none => "Enter file location to save files: "
  | some p => "Enter file location to save files (default: " ++ p ++ "): "

/-- Result of program startup: console lines printed, total seconds slept
before exiting, and the exit status (`none` when the process does not
exit — the tool-available path continues, and the `KeyboardInterrupt`
handler loops forever). -/
structure StartupResult where
  printed : List String
  delay_seconds : Nat
  exit_code : Option Nat
deriving DecidableEq

/-- Ways `subprocess.run(['yt-dlp', '--version'], check=True)` signals that
the external tool is missing or unreachable: the tool runs but reports a
non-zero status (`CalledProcessError`), the executable is not found
(`FileNotFoundError`), it is not permitted to execute (`PermissionError`),
or the spawn fails with another OS error (plain `OSError`). -/
def TOOL_FAILURE_MODES : List PyExc :=
  [PyExc.calledProcessError, PyExc.fileNotFoundError, PyExc.permissionError, PyExc.osError]

/-- Embedding of startup behavior per raised exception.
`check_yt_dlp_availability` (lines 58-65) catches `CalledProcessError`:
print, sleep 5, `sys.exit()` (status 0).  Every other exception propagates
out of `configure_logging()` to the `__main__` handlers (lines 249-266):
`FileNotFoundError`/`PermissionError` are printed, the process sleeps 10
and `close()` prints the farewell, sleeps 1 and exits with status 0; any
other `OSError` is printed and `sys.exit()` is called at once (status 0,
no sleep); `KeyboardInterrupt` prints and enters a non-terminating loop;
an exception outside all handlers aborts with the default failure status. -/
def startup_failure (e : PyExc) (detail : String) : StartupResult :=
  match e with
  | PyExc.calledProcessError => ⟨["yt-dlp is not installed"], 5, some 0⟩
  | PyExc.fileNotFoundError => ⟨["Error: " ++ detail, close_farewell], 11, some 0⟩
  | PyExc.permissionError => ⟨["Error: " ++ detail, close_farewell], 11, some 0⟩
  | PyExc.osError => ⟨["Error: " ++ detail], 0, some 0⟩
  | PyExc.keyboardInterrupt => ⟨["\nInterrupted"], 0, none⟩
  | PyExc.attributeError => ⟨[], 0, some 1⟩

/-- Python `str.split('/')` on a character list (`"".split('/') = ['']`). -/
def splitSlash : List Char → List (List Char)
  | [] => [[]]
  | c :: rest =>
    if c = '/' then [] :: splitSlash rest
    else
      match splitSlash rest with
      | [] => [[c]]
      | h :: t => (c :: h) :: t

/-- Leading-slash normalization of CPython `posixpath.normpath`: one
leading `/` is kept, exactly two are kept as two, three or more collapse
to one. -/
def initial_slashes (l : List Char) : Nat :=
  if l.take 1 = ['/'] then
    if l.take 2 = ['/', '/'] ∧ ¬l.take 3 = ['/', '/', '/'] then 2 else 1
  else 0

/-- Component loop of CPython `posixpath.normpath`: drop empty and `.`
components; append a component unless it is `..` resolvable against a
preceding real component, in which case pop that component. -/
def normpath_fold (slashes : Nat) (acc : List (List Char)) (comp : List Char) :
    List (List Char) :=
  if comp = [] ∨ comp = ['.'] then acc
  else if comp ≠ ['.', '.'] ∨ (slashes = 0 ∧ acc = []) ∨ acc.getLast? = some ['.', '.'] then
    acc ++ [comp]
  else acc.dropLast

/-- Embedding of `sanitize_file_path` (`YouMain.py` lines 78-80):
`os.path.normpath`, POSIX variant (CPython `posixpath.normpath`) — a pure
lexical normalization that neither reads nor writes the filesystem. -/
def sanitize_file_path (p : String) : String :=
  if p = "" then "."
  else
    let slashes := initial_slashes p.data
    let comps := (splitSlash p.data).foldl (normpath_fold slashes) []
    let joined := List.replicate slashes '/' ++ List.intercalate ['/'] comps
    if joined = [] then "." else ⟨joined⟩

theorem dropPre?_eq_some {p l r : List Char} : dropPre? p l = some r ↔ l = p ++ r := by
  induction p generalizing l with
  | nil => simp [dropPre?]
  | cons a p ih =>
    cases l with
    | nil => simp [dropPre?]
    | cons b l =>
      by_cases hab : a = b
      · subst hab
        simp [dropPre?, ih]
      · simp only [dropPre?, if_neg hab, List.cons_append, List.cons.injEq]
        constructor
        · intro h
          exact Option.noConfusion h
        · rintro ⟨h, -⟩
          exact absurd h.symm hab

theorem matches_alt_iff {s sc w h t : List Char} :
    matches_alt s sc w h t = true ↔
      ∃ rest, s = sc ++ w ++ h ++ '.' :: t ++ ['/'] ++ rest ∧ tail_ok rest = true := by
  constructor
  · intro hm
    cases hd : dropPre? (sc ++ w ++ h ++ '.' :: t ++ ['/']) s with
    | none =>
      rw [matches_alt, hd] at hm
      exact absurd hm (by simp)
    | some r =>
      refine ⟨r, dropPre?_eq_some.mp hd, ?_⟩
      rwa [matches_alt, hd] at hm
  · rintro ⟨rest, hs, ht⟩
    have hd : dropPre? (sc ++ w ++ h ++ '.' :: t ++ ['/']) s = some rest := by
      exact dropPre?_eq_some.mpr (by simpa using hs)
    rw [matches_alt, hd]
    exact ht

theorem is_valid_url_iff (s : String) : is_valid_url s = true ↔ UrlPatternMatch s := by
  unfold is_valid_url UrlPatternMatch
  simp only [List.any_eq_true, matches_alt_iff, List.append_assoc, List.cons_append,
    List.singleton_append, List.nil_append]

/-- C1: evaluation of `get_user_options` at the claim's inputs.  Blank
input gives quality `"best"`, format `"best"` and subtitles `true` as the
claim states, but the subtitles field is `(input == 'y') || True`, which is
`true` for EVERY input — in particular for `"n"`, where the claim (and the
code's own `(y/n, default: y)` prompt) expects `false`.  The first
conjunct proves the subtitles answer can never be `false`. -/
theorem c1_get_user_options_subtitles_always_true :
    (∀ q a s : String, (get_user_options q a s).subtitles = true) ∧
    (get_user_options "" "" "").video_quality = "best" ∧
    (get_user_options "" "" "").audio_format = "best" ∧
    (get_user_options "" "" "").subtitles = true ∧
    (get_user_options "" "" "n").subtitles = true := by
  refine ⟨fun q a s => ?_, by decide, by decide, by decide, by decide⟩
  simp [get_user_options, DEFAULT_SUBTITLES]

/-- C2 counterexample: the claim says `is_valid_url` matches the pattern
case-insensitively, but the regex on line 70 is compiled without
`re.IGNORECASE`.  The input `"Youtube.com/x"` matches the pattern
case-insensitively (its lower-casing is accepted) yet `is_valid_url`
rejects it. -/
theorem c2_counterexample_case_sensitive :
    is_valid_url "Youtube.com/x" = false ∧ url_matches_ci "Youtube.com/x" = true := by
  constructor
  · decide
  · decide

/-- C2 (amended): for every string `s`, `is_valid_url s` returns true iff
`s` matches, CASE-SENSITIVELY, the pattern: optional scheme (`http://` or
`https://`), optional `www.`, a host among youtube/youtu/youtube-nocookie
with `.com` or `.be`, then `/` and any path; strings not matching
(including the empty string) yield false, and the claim's examples yield
true. -/
theorem c2_is_valid_url_characterization :
    (∀ s : String, is_valid_url s = true ↔ UrlPatternMatch s) ∧
    is_valid_url "https://www.youtube.com/watch?v=abc123" = true ∧
    is_valid_url "youtu.be/abc123" = true ∧
    is_valid_url "" = false :=
  ⟨is_valid_url_iff, by decide, by decide, by decide⟩

/-- C3: on the first iteration (no remembered directory) a blank directory
input resolves to `None`; the subsequent `.replace` call on it raises
`AttributeError`, which none of the top-level handlers catches, so the
session crashes instead of re-prompting. -/
theorem c3_blank_directory_crashes (inp : String) (hblank : pyStrip inp = "") :
    resolve_file_location none inp = none ∧
    prompting_step none inp = Except.error PyExc.attributeError ∧
    handled_at_top_level PyExc.attributeError = false := by
  refine ⟨?_, ?_, by decide⟩ <;>
    simp [resolve_file_location, prompting_step, hblank]

/-- C3 witness: the empty input on the first iteration. -/
theorem c3_blank_directory_crashes_witness :
    pyStrip "" = "" ∧
    (resolve_file_location none "" = none ∧
      prompting_step none "" = Except.error PyExc.attributeError ∧
      handled_at_top_level PyExc.attributeError = false) :=
  ⟨rfl, c3_blank_directory_crashes "" rfl⟩

/-- C4: `move_thumbnails` marks the destination as created, moves exactly
the entries ending in one of `.webp`, `.png`, `.jpg`, `.jpeg` into the
destination under the same name, keeps every other entry in the source,
and on the claim's concrete directory produces exactly
`thumbnails/cover.jpg` and `thumbnails/poster.webp` with `video.mp4`
left in place. -/
theorem c4_move_thumbnails_characterization :
    (∀ st : DirState, (move_thumbnails st).dest_exists = true) ∧
    (∀ (st : DirState) (f : String),
      (f ∈ (move_thumbnails st).source_files ↔
        f ∈ st.source_files ∧ is_thumbnail f = false) ∧
      (f ∈ (move_thumbnails st).dest_files ↔
        f ∈ st.dest_files ∨ f ∈ st.source_files ∧ is_thumbnail f = true)) ∧
    (∀ f : String, is_thumbnail f =
      (endswith f ".webp" || endswith f ".png" || endswith f ".jpg" || endswith f ".jpeg")) ∧
    move_thumbnails ⟨["cover.jpg", "video.mp4", "poster.webp"], false, []⟩ =
      ⟨["video.mp4"], true, ["cover.jpg", "poster.webp"]⟩ := by
  refine ⟨fun st => rfl, fun st f => ⟨?_, ?_⟩, fun f => ?_, by decide⟩
  · simp [move_thumbnails, List.mem_filter]
  · simp [move_thumbnails, List.mem_filter, List.mem_append]
  · simp [is_thumbnail, FILE_EXTENSIONS, Bool.or_assoc]

/-- C5: `remove_ytdl_files` removes exactly the entries whose name ends in
`.ytdl` and keeps every other entry unchanged; on the claim's concrete
directory, `part.ytdl` is gone and `video.mp4` is untouched. -/
theorem c5_remove_ytdl_files_characterization :
    (∀ (files : List String) (f : String),
      (f ∈ remove_ytdl_files files ↔ f ∈ files ∧ endswith f ".ytdl" = false) ∧
      (f ∈ remove_ytdl_files files → endswith f ".ytdl" = false)) ∧
    remove_ytdl_files ["part.ytdl", "video.mp4"] = ["video.mp4"] := by
  refine ⟨fun files f => ?_, by decide⟩
  have h : f ∈ remove_ytdl_files files ↔ f ∈ files ∧ endswith f ".ytdl" = false := by
    simp [remove_ytdl_files, List.mem_filter]
  exact ⟨h, fun hm => (h.mp hm).2⟩

/-- C10: the extension test on line 111 is `str.endswith`, which is
case-sensitive: an entry whose name is only a thumbnail after
lower-casing is not moved (it stays in the source and is never added to
the destination), while the lower-cased name itself would be moved.
`"COVER.JPG"` is such a name. -/
theorem c10_thumbnail_extension_case_sensitive (f : String) (st : DirState)
    (hf : is_thumbnail f = false) (hlow : is_thumbnail (pyLower f) = true)
    (hmem : f ∈ st.source_files) :
    f ∈ (move_thumbnails st).source_files ∧
    (f ∉ st.dest_files → f ∉ (move_thumbnails st).dest_files) ∧
    (∀ st' : DirState, pyLower f ∈ st'.source_files →
      pyLower f ∈ (move_thumbnails st').dest_files) := by
  refine ⟨?_, fun hnd hmem' => ?_, fun st' hm => ?_⟩
  · simp [move_thumbnails, List.mem_filter, hmem, hf]
  · simp [move_thumbnails, List.mem_filter, hf] at hmem'
    exact hnd hmem'
  · simp [move_thumbnails, List.mem_filter, List.mem_append, hm, hlow]

/-- C10 witness: the upper-case name `"COVER.JPG"` in a source directory. -/
theorem c10_thumbnail_extension_case_sensitive_witness :
    (is_thumbnail "COVER.JPG" = false ∧ is_thumbnail (pyLower "COVER.JPG") = true ∧
      "COVER.JPG" ∈ (⟨["COVER.JPG"], false, []⟩ : DirState).source_files) ∧
    ("COVER.JPG" ∈ (move_thumbnails ⟨["COVER.JPG"], false, []⟩).source_files ∧
      ("COVER.JPG" ∉ (⟨["COVER.JPG"], false, []⟩ : DirState).dest_files →
        "COVER.JPG" ∉ (move_thumbnails ⟨["COVER.JPG"], false, []⟩).dest_files) ∧
      (∀ st' : DirState, pyLower "COVER.JPG" ∈ st'.source_files →
        pyLower "COVER.JPG" ∈ (move_thumbnails st').dest_files)) :=
  ⟨⟨by decide, by decide, by decide⟩,
    c10_thumbnail_extension_case_sensitive "COVER.JPG" ⟨["COVER.JPG"], false, []⟩
      (by decide) (by decide) (by decide)⟩

theorem start_again_skip_invalid (dir : String) {junk : List String}
    (hjunk : ∀ i ∈ junk, pyLower (pyStrip i) ≠ "y" ∧ pyLower (pyStrip i) ≠ "n")
    (l : List String) :
    start_again dir (junk ++ l) =
      ((start_again dir l).1 + junk.length, (start_again dir l).2) := by
  induction junk with
  | nil => simp
  | cons i junk ih =>
    have hi := hjunk i (by simp)
    have ih' := ih fun j hj => hjunk j (by simp [hj])
    simp only [List.cons_append, start_again, if_neg hi.1, if_neg hi.2, List.append_eq]
    rw [ih']
    simp only [List.length_cons, Prod.mk.injEq]
    exact ⟨by omega, trivial⟩

/-- C6: the fetch step never lets an exception escape (the
`DownloadError` branch prints the error instead), and the controller runs
the organizing step (`move_thumbnails` then `remove_ytdl_files` on the
validated directory) with the same result whatever the fetch outcome was;
a failed fetch prints its error message. -/
theorem c6_fetch_failure_nonfatal :
    (∀ (o : FetchOutcome) (st : DirState),
      (fetch_and_organize o st).1.raised = none ∧
      (fetch_and_organize o st).2 = (fetch_and_organize FetchOutcome.success st).2 ∧
      (fetch_and_organize o st).2.source_files =
        remove_ytdl_files (move_thumbnails st).source_files ∧
      (fetch_and_organize o st).2.dest_files = (move_thumbnails st).dest_files ∧
      (fetch_and_organize o st).2.dest_exists = true) ∧
    (∀ d : String,
      (download_video_with_options (FetchOutcome.downloadError d)).printed =
        ["Error: " ++ d]) := by
  refine ⟨fun o st => ?_, fun d => rfl⟩
  cases o <;> exact ⟨rfl, rfl, rfl, rfl, rfl⟩

/-- C7: in the restart loop, any run of answers that are neither `"y"` nor
`"n"` (after stripping and lower-casing) consumes exactly its own length
in prompts and decides nothing; appending `"n"` decides `terminate` after
exactly one more prompt, ignoring any further input, with the farewell
`"\nBye"` and exit status 0; appending `"y"` decides to restart `run` with
the just-used directory after exactly one more prompt, and that directory
is then shown in the prompt as the default and reused on blank input. -/
theorem c7_restart_loop (junk rest : List String) (dir : String)
    (hjunk : ∀ i ∈ junk, pyLower (pyStrip i) ≠ "y" ∧ pyLower (pyStrip i) ≠ "n") :
    start_again dir junk = (junk.length, none) ∧
    start_again dir (junk ++ "n" :: rest) = (junk.length + 1, some Decision.terminate) ∧
    start_again dir (junk ++ "y" :: rest) =
      (junk.length + 1, some (Decision.restart dir)) ∧
    close_farewell = "\nBye" ∧
    close_exit_code = 0 ∧
    file_location_prompt (some dir) =
      "Enter file location to save files (default: " ++ dir ++ "): " ∧
    resolve_file_location (some dir) "" = some dir := by
  refine ⟨?_, ?_, ?_, rfl, rfl, rfl, rfl⟩
  · have h := start_again_skip_invalid dir hjunk ([] : List String)
    simpa [start_again] using h
  · have h := start_again_skip_invalid dir hjunk ("n" :: rest)
    have hn : start_again dir ("n" :: rest) = (1, some Decision.terminate) := rfl
    rw [h, hn, Nat.add_comm]
  · have h := start_again_skip_invalid dir hjunk ("y" :: rest)
    have hy : start_again dir ("y" :: rest) = (1, some (Decision.restart dir)) := rfl
    rw [h, hy, Nat.add_comm]

/-- C7 witness: two invalid answers, then the valid ones, for a concrete
directory. -/
theorem c7_restart_loop_witness :
    (∀ i ∈ ["maybe", ""], pyLower (pyStrip i) ≠ "y" ∧ pyLower (pyStrip i) ≠ "n") ∧
    (start_again "/videos" ["maybe", ""] = (2, none) ∧
      start_again "/videos" (["maybe", ""] ++ "n" :: ["x"]) =
        (3, some Decision.terminate) ∧
      start_again "/videos" (["maybe", ""] ++ "y" :: ["x"]) =
        (3, some (Decision.restart "/videos")) ∧
      close_farewell = "\nBye" ∧
      close_exit_code = 0 ∧
      file_location_prompt (some "/videos") =
        "Enter file location to save files (default: " ++ "/videos" ++ "): " ∧
      resolve_file_location (some "/videos") "" = some "/videos") :=
  ⟨by decide, c7_restart_loop ["maybe", ""] ["x"] "/videos" (by decide)⟩

/-- C8 counterexample: a plain `OSError` from spawning the tool (for
example an exec-format error on a corrupted binary) is a way the tool is
unreachable, and the `__main__` handler for it calls `sys.exit()` with no
sleep: the process does exit with status 0, but not "after a fixed delay"
as the claim requires for every failure mode. -/
theorem c8_counterexample_oserror_no_delay :
    PyExc.osError ∈ TOOL_FAILURE_MODES ∧
    (startup_failure PyExc.osError "Exec format error").delay_seconds = 0 ∧
    (startup_failure PyExc.osError "Exec format error").exit_code = some 0 := by
  refine ⟨by decide, rfl, rfl⟩

/-- C8 (amended): for every way the tool check can fail, the program
prints a message and exits with success status 0; for every such way
except a plain `OSError` the exit follows a positive fixed delay, while a
plain `OSError` exits immediately. -/
theorem c8_startup_failure_exits_zero (e : PyExc) (d : String)
    (he : e ∈ TOOL_FAILURE_MODES) :
    (startup_failure e d).printed ≠ [] ∧
    (startup_failure e d).exit_code = some 0 ∧
    (e ≠ PyExc.osError → 0 < (startup_failure e d).delay_seconds) := by
  fin_cases he <;> simp [startup_failure]

/-- C8 witness: the most common failure mode — the `yt-dlp` executable is
absent, so `subprocess.run` raises `FileNotFoundError`. -/
theorem c8_startup_failure_exits_zero_witness :
    PyExc.fileNotFoundError ∈ TOOL_FAILURE_MODES ∧
    ((startup_failure PyExc.fileNotFoundError "No such file or directory").printed ≠ [] ∧
      (startup_failure PyExc.fileNotFoundError "No such file or directory").exit_code =
        some 0 ∧
      (PyExc.fileNotFoundError ≠ PyExc.osError →
        0 < (startup_failure PyExc.fileNotFoundError
          "No such file or directory").delay_seconds)) :=
  ⟨by decide,
    c8_startup_failure_exits_zero PyExc.fileNotFoundError "No such file or directory"
      (by decide)⟩

/-- C9: `sanitize_file_path` is `os.path.normpath`, a pure lexical
function of its argument (the embedding takes no filesystem state): it
collapses redundant separators and relative segments, and on the claim's
example `"a//b/../c"` yields `"a/c"`. -/
theorem c9_sanitize_normalizes :
    sanitize_file_path "a//b/../c" = "a/c" ∧
    sanitize_file_path "a//b" = "a/b" ∧
    sanitize_file_path "a/./b" = "a/b" ∧
    sanitize_file_path "" = "." := by
  refine ⟨by decide, by decide, by decide, by decide⟩

end YouMain
